import Mathlib

/-!
Verification of the order-pricing and availability-aggregation core:
`ProductService` (catalog lookup, tax enrichment, availability) and
`CartService` (cart lines, totals, discount, validation).

Money is modelled exactly with rationals; `Math.round(x * 100) / 100` becomes
`round2`.  The remote fetch performed by `axios.get` is an input of each
operation: `Except String RawProduct` carries either the JSON body of a
successful response or the message of the transport error.  `Math.random()`
is an explicit input `draw : ℚ`.  Thrown `Error`s become `Except.error` with
the same message strings as the source.
-/

/-- JSON body returned by the remote product endpoint
(`id, title, price, description, category, image`). -/
structure RawProduct where
  id : Nat
  title : String
  price : ℚ
  description : String
  category : String
  image : String
deriving Repr, DecidableEq

/-- Product object built by `ProductService.getProduct`. -/
structure Product where
  id : Nat
  title : String
  price : ℚ
  description : String
  category : String
  image : String
  isExpensive : Bool
  priceWithTax : ℚ
deriving Repr, DecidableEq

/-- Product object built by `ProductService.getProductsByCategory`
(no `description`/`image` field in the source's mapping). -/
structure CategoryProduct where
  id : Nat
  title : String
  price : ℚ
  category : String
  isExpensive : Bool
  priceWithTax : ℚ
deriving Repr, DecidableEq

/-- `Math.round(x * 100) / 100`: JavaScript `Math.round` is `⌊x + 1/2⌋`. -/
def round2 (x : ℚ) : ℚ := (⌊x * 100 + 1/2⌋ : ℤ) / 100

/-- `ProductService.calculateTax`: 15% above the $100 threshold, 10% at or
below it; returns `price + price * taxRate`. -/
def calculateTax (price : ℚ) : ℚ :=
  let taxRate : ℚ := if price > 100 then 15/100 else 10/100
  price + price * taxRate

/-- The product object literal built inside `ProductService.getProduct`
from a successful response body. -/
def enrichProduct (d : RawProduct) : Product :=
  { id := d.id
    title := d.title
    price := d.price
    description := d.description
    category := d.category
    image := d.image
    isExpensive := decide (d.price > 100)
    priceWithTax := calculateTax d.price }

/-- `ProductService.getProduct`: on fetch success builds the enriched
product; on fetch failure rethrows
`No se pudo obtener el producto: <cause>`. -/
def getProduct (fetch : Except String RawProduct) : Except String Product :=
  match fetch with
  | Except.ok d => Except.ok (enrichProduct d)
  | Except.error e => Except.error ("No se pudo obtener el producto: " ++ e)

/-- The arrow function mapped over the response body inside
`ProductService.getProductsByCategory`. -/
def enrichCategoryProduct (p : RawProduct) : CategoryProduct :=
  { id := p.id
    title := p.title
    price := p.price
    category := p.category
    isExpensive := decide (p.price > 100)
    priceWithTax := calculateTax p.price }

/-- `ProductService.getProductsByCategory`: maps the enrichment over the
fetched list, else rethrows
`No se pudieron obtener productos de la categoría: <cause>`. -/
def getProductsByCategory (fetch : Except String (List RawProduct)) :
    Except String (List CategoryProduct) :=
  match fetch with
  | Except.ok l => Except.ok (l.map enrichCategoryProduct)
  | Except.error e =>
      Except.error ("No se pudieron obtener productos de la categoría: " ++ e)

/-- `ProductService.isProductAvailable`: re-fetches the product via
`getProduct`; returns `!product.isExpensive || Math.random() > 0.3`, and
`false` when the fetch (hence `getProduct`) failed. -/
def isProductAvailable (fetch : Except String RawProduct) (draw : ℚ) : Bool :=
  match getProduct fetch with
  | Except.ok product => !product.isExpensive || decide (draw > 3/10)
  | Except.error _ => false

/-- One element of `CartService.items`. -/
structure CartItem where
  productId : Nat
  title : String
  price : ℚ
  priceWithTax : ℚ
  quantity : Int
  subtotal : ℚ
  isExpensive : Bool
deriving Repr, DecidableEq

/-- In-place mutation of the item found by `items.find(...)`: replace the
first item whose `productId` matches, keep the rest. -/
def replaceFirst (items : List CartItem) (pid : Nat) (updated : CartItem) :
    List CartItem :=
  match items with
  | [] => []
  | item :: rest =>
      if item.productId == pid then updated :: rest
      else item :: replaceFirst rest pid updated

/-- `CartService.addProduct`.  `fetchProduct` is the response of the
`axios.get` issued by the `getProduct` call, `fetchAvail`/`draw` those of
the independent `isProductAvailable` call.  Returns the value
(or wrapped error) together with the cart's item list after the call;
both `throw` sites occur before any mutation of `this.items`, so the error
branches return the incoming list. -/
def addProduct (items : List CartItem) (productId : Nat) (quantity : Int)
    (fetchProduct fetchAvail : Except String RawProduct) (draw : ℚ) :
    Except String CartItem × List CartItem :=
  match getProduct fetchProduct with
  | Except.error msg =>
      (Except.error ("No se pudo agregar al carrito: " ++ msg), items)
  | Except.ok product =>
      if isProductAvailable fetchAvail draw = false then
        (Except.error ("No se pudo agregar al carrito: " ++
          ("Producto " ++ product.title ++ " no disponible en stock")), items)
      else
        match items.find? (fun item => item.productId == productId) with
        | some existingItem =>
            let updated : CartItem :=
              { existingItem with
                quantity := existingItem.quantity + quantity
                subtotal :=
                  ((existingItem.quantity + quantity : Int) : ℚ) *
                    product.priceWithTax }
            (Except.ok updated, replaceFirst items productId updated)
        | none =>
            let newItem : CartItem :=
              { productId := productId
                title := product.title
                price := product.price
                priceWithTax := product.priceWithTax
                quantity := quantity
                subtotal := (quantity : ℚ) * product.priceWithTax
                isExpensive := product.isExpensive }
            (Except.ok newItem, items ++ [newItem])

/-- Return value of `CartService.getCartSummary`. -/
structure CartSummary where
  items : List CartItem
  totalItems : Int
  subtotal : ℚ
  discount : ℚ
  total : ℚ
  hasDiscount : Bool
deriving Repr, DecidableEq

/-- `CartService.getCartSummary`: reduces quantities and subtotals, applies
the 5% discount when the raw subtotal exceeds 500, rounds `subtotal`,
`discount` and `total` independently. -/
def getCartSummary (items : List CartItem) : CartSummary :=
  let totalItems : Int := items.foldl (fun sum item => sum + item.quantity) 0
  let subtotal : ℚ := items.foldl (fun sum item => sum + item.subtotal) 0
  let discount := if subtotal > 500 then subtotal * (5/100) else 0
  let total := subtotal - discount
  { items := items
    totalItems := totalItems
    subtotal := round2 subtotal
    discount := round2 discount
    total := round2 total
    hasDiscount := decide (discount > 0) }

/-- One entry pushed into `validationResults` by `CartService.validateCart`. -/
structure ValidationEntry where
  productId : Nat
  title : String
  quantity : Int
  isAvailable : Bool
deriving Repr, DecidableEq

/-- Return value of `CartService.validateCart`. -/
structure ValidationResult where
  isValid : Bool
  availableItems : List ValidationEntry
  unavailableItems : List ValidationEntry
  totalItems : Nat
deriving Repr, DecidableEq

/-- The `for (const item of this.items)` loop of `CartService.validateCart`:
one fresh `isProductAvailable` call per line.  The `i`-th call of the loop
consumes `fetchOf i` and `drawOf i`. -/
def validationResults (i : Nat) (items : List CartItem)
    (fetchOf : Nat → Except String RawProduct) (drawOf : Nat → ℚ) :
    List ValidationEntry :=
  match items with
  | [] => []
  | item :: rest =>
      { productId := item.productId
        title := item.title
        quantity := item.quantity
        isAvailable := isProductAvailable (fetchOf i) (drawOf i) } ::
        validationResults (i + 1) rest fetchOf drawOf

/-- `CartService.validateCart`: partitions the per-line results by verdict. -/
def validateCart (items : List CartItem)
    (fetchOf : Nat → Except String RawProduct) (drawOf : Nat → ℚ) :
    ValidationResult :=
  let results := validationResults 0 items fetchOf drawOf
  let unavailableItems := results.filter (fun r => !r.isAvailable)
  let isValid := unavailableItems.length == 0
  { isValid := isValid
    availableItems := results.filter (fun r => r.isAvailable)
    unavailableItems := unavailableItems
    totalItems := results.length }

/-- `CartService.clearCart`: `this.items = []`. -/
def clearCart (_items : List CartItem) : List CartItem := []

/-- `CartService.getItems`: read accessor returning the lines. -/
def getItems (items : List CartItem) : List CartItem := items

/-- One call through the cart aggregator's public interface, with the
environment (fetch responses, random draws) each call consumes. -/
inductive CartOp where
  | add (productId : Nat) (quantity : Int)
      (fetchProduct fetchAvail : Except String RawProduct) (draw : ℚ)
  | summary
  | validate (fetchOf : Nat → Except String RawProduct) (drawOf : Nat → ℚ)
  | clear
  | read

/-- Effect of one aggregator call on `this.items`.  `getCartSummary`,
`validateCart` and `getItems` never assign to `this.items`. -/
def applyOp (items : List CartItem) (op : CartOp) : List CartItem :=
  match op with
  | CartOp.add pid q f g r => (addProduct items pid q f g r).2
  | CartOp.summary => items
  | CartOp.validate _ _ => items
  | CartOp.clear => clearCart items
  | CartOp.read => getItems items

/-- Cart state reached from the fresh aggregator (`this.items = []`) after a
sequence of calls. -/
def runOps (ops : List CartOp) : List CartItem := ops.foldl applyOp []

/-- The spec's CartLine invariant. -/
def lineInvariant (item : CartItem) : Prop :=
  1 ≤ item.quantity ∧ item.subtotal = (item.quantity : ℚ) * item.priceWithTax

/-- An `add` call within its contract against a fixed catalog: the product
fetch is the catalog's response for that id, and the quantity is positive. -/
def OpRespects (catalog : Nat → Except String RawProduct) : CartOp → Prop
  | CartOp.add pid q f _ _ => f = catalog pid ∧ 1 ≤ q
  | _ => True

/-- A line's stored unit price agrees with the fixed catalog. -/
def CatalogConsistent (catalog : Nat → Except String RawProduct)
    (item : CartItem) : Prop :=
  ∃ raw, catalog item.productId = Except.ok raw ∧
    item.priceWithTax = calculateTax raw.price

/-- Induction invariant for cart states: every line satisfies the CartLine
invariant and prices agree with the catalog. -/
def GoodState (catalog : Nat → Except String RawProduct)
    (items : List CartItem) : Prop :=
  ∀ item ∈ items, lineInvariant item ∧ CatalogConsistent catalog item

lemma foldl_add_map {α M : Type} [AddCommMonoid M] (f : α → M) :
    ∀ (l : List α) (a : M), l.foldl (fun s x => s + f x) a = a + (l.map f).sum := by
  intro l
  induction l with
  | nil => intro a; simp
  | cons x xs ih => intro a; simp [ih, add_assoc]

lemma round2_zero : round2 0 = 0 := by norm_num [round2]

lemma getCartSummary_eq (items : List CartItem) :
    getCartSummary items =
      { items := items
        totalItems := (items.map CartItem.quantity).sum
        subtotal := round2 ((items.map CartItem.subtotal).sum)
        discount := round2 (if (items.map CartItem.subtotal).sum > 500 then
          (items.map CartItem.subtotal).sum * (5/100) else 0)
        total := round2 ((items.map CartItem.subtotal).sum -
          (if (items.map CartItem.subtotal).sum > 500 then
            (items.map CartItem.subtotal).sum * (5/100) else 0))
        hasDiscount := decide ((if (items.map CartItem.subtotal).sum > 500 then
          (items.map CartItem.subtotal).sum * (5/100) else 0) > 0) } := by
  unfold getCartSummary
  simp only [foldl_add_map, zero_add]

lemma mem_replaceFirst {items : List CartItem} {pid : Nat} {u x : CartItem}
    (h : x ∈ replaceFirst items pid u) : x = u ∨ x ∈ items := by
  induction items with
  | nil => simp [replaceFirst] at h
  | cons a rest ih =>
      by_cases hc : (a.productId == pid) = true
      · rw [replaceFirst, if_pos hc] at h
        rcases List.mem_cons.mp h with h1 | h2
        · exact Or.inl h1
        · exact Or.inr (List.mem_cons_of_mem a h2)
      · rw [replaceFirst, if_neg hc] at h
        rcases List.mem_cons.mp h with h1 | h2
        · exact Or.inr (h1 ▸ List.mem_cons_self a rest)
        · rcases ih h2 with h3 | h4
          · exact Or.inl h3
          · exact Or.inr (List.mem_cons_of_mem a h4)

lemma good_addProduct (catalog : Nat → Except String RawProduct)
    (items : List CartItem) (pid : Nat) (q : Int)
    (g : Except String RawProduct) (r : ℚ)
    (hgood : GoodState catalog items) (hq : 1 ≤ q) :
    GoodState catalog (addProduct items pid q (catalog pid) g r).2 := by
  cases hcat : catalog pid with
  | error e =>
      simp only [addProduct, getProduct]
      exact hgood
  | ok raw =>
      simp only [addProduct, getProduct]
      by_cases hav : isProductAvailable g r = false
      · rw [if_pos hav]
        exact hgood
      · rw [if_neg hav]
        cases hfind : items.find? (fun item => item.productId == pid) with
        | none =>
            simp only
            intro x hx
            rcases List.mem_append.mp hx with hxi | hxn
            · exact hgood x hxi
            · have hx' : x =
                  { productId := pid
                    title := (enrichProduct raw).title
                    price := (enrichProduct raw).price
                    priceWithTax := (enrichProduct raw).priceWithTax
                    quantity := q
                    subtotal := (q : ℚ) * (enrichProduct raw).priceWithTax
                    isExpensive := (enrichProduct raw).isExpensive } := by
                simpa using hxn
              subst hx'
              refine ⟨⟨hq, rfl⟩, ⟨raw, hcat, rfl⟩⟩
        | some existingItem =>
            have hmem := List.mem_of_find?_eq_some hfind
            have hpid : existingItem.productId = pid := by
              simpa using List.find?_some hfind
            obtain ⟨⟨hq1, _⟩, ⟨raw', hcat', hpw⟩⟩ := hgood existingItem hmem
            rw [hpid, hcat] at hcat'
            have hraw : raw' = raw := (Except.ok.inj hcat').symm
            subst hraw
            simp only
            intro x hx
            rcases mem_replaceFirst hx with hx' | hxi
            · subst hx'
              refine ⟨⟨?_, ?_⟩, ⟨raw', ?_, hpw⟩⟩
              · show 1 ≤ existingItem.quantity + q
                omega
              · show ((existingItem.quantity + q : Int) : ℚ) *
                    (enrichProduct raw').priceWithTax =
                  ((existingItem.quantity + q : Int) : ℚ) * existingItem.priceWithTax
                rw [hpw]
                rfl
              · show catalog existingItem.productId = Except.ok raw'
                rw [hpid]
                exact hcat
            · exact hgood x hxi

lemma foldl_applyOp_good (catalog : Nat → Except String RawProduct) :
    ∀ (ops : List CartOp) (items : List CartItem),
      GoodState catalog items → (∀ op ∈ ops, OpRespects catalog op) →
      GoodState catalog (ops.foldl applyOp items) := by
  intro ops
  induction ops with
  | nil => intro items h _; simpa using h
  | cons op rest ih =>
      intro items h hops
      rw [List.foldl_cons]
      refine ih (applyOp items op) ?_ (fun o ho => hops o (List.mem_cons_of_mem op ho))
      cases op with
      | add pid q f g r =>
          obtain ⟨hf, hq⟩ := hops (CartOp.add pid q f g r) (List.mem_cons_self _ _)
          show GoodState catalog (addProduct items pid q f g r).2
          rw [hf]
          exact good_addProduct catalog items pid q g r h hq
      | summary => exact h
      | validate f d => exact h
      | clear => intro x hx; simp [applyOp, clearCart] at hx
      | read => exact h

lemma validationResults_length (fetchOf : Nat → Except String RawProduct)
    (drawOf : Nat → ℚ) :
    ∀ (items : List CartItem) (i : Nat),
      (validationResults i items fetchOf drawOf).length = items.length := by
  intro items
  induction items with
  | nil => intro i; rfl
  | cons x xs ih => intro i; simp [validationResults, ih]

lemma validationResults_getElem? (fetchOf : Nat → Except String RawProduct)
    (drawOf : Nat → ℚ) :
    ∀ (items : List CartItem) (i j : Nat),
      (validationResults i items fetchOf drawOf)[j]? =
        (items[j]?).map (fun item =>
          { productId := item.productId
            title := item.title
            quantity := item.quantity
            isAvailable := isProductAvailable (fetchOf (i + j)) (drawOf (i + j)) }) := by
  intro items
  induction items with
  | nil => intro i j; simp [validationResults]
  | cons x xs ih =>
      intro i j
      cases j with
      | zero => simp [validationResults]
      | succ j' =>
          have harith : i + (j' + 1) = (i + 1) + j' := by omega
          simp [validationResults, ih (i + 1) j', harith]

lemma summary_items (items : List CartItem) :
    (getCartSummary items).items = items := by rw [getCartSummary_eq]

lemma summary_totalItems (items : List CartItem) :
    (getCartSummary items).totalItems = (items.map CartItem.quantity).sum := by
  rw [getCartSummary_eq]

lemma summary_subtotal (items : List CartItem) :
    (getCartSummary items).subtotal = round2 ((items.map CartItem.subtotal).sum) := by
  rw [getCartSummary_eq]

lemma summary_discount (items : List CartItem) :
    (getCartSummary items).discount =
      round2 (if (items.map CartItem.subtotal).sum > 500 then
        (items.map CartItem.subtotal).sum * (5/100) else 0) := by
  rw [getCartSummary_eq]

lemma summary_total (items : List CartItem) :
    (getCartSummary items).total =
      round2 ((items.map CartItem.subtotal).sum -
        (if (items.map CartItem.subtotal).sum > 500 then
          (items.map CartItem.subtotal).sum * (5/100) else 0)) := by
  rw [getCartSummary_eq]

lemma summary_hasDiscount (items : List CartItem) :
    (getCartSummary items).hasDiscount =
      decide ((if (items.map CartItem.subtotal).sum > 500 then
        (items.map CartItem.subtotal).sum * (5/100) else 0) > 0) := by
  rw [getCartSummary_eq]

/-- C1: `getProduct` marks a fetched price `p ≤ 100` as not expensive with
`priceWithTax = p * 1.10` and a price `p > 100` as expensive with
`priceWithTax = p * 1.15`; in particular `p = 999` gives `1148.85` and
`p = 25` gives `27.5`; `getProductsByCategory` applies the same per-item
enrichment to every element, in upstream order. -/
theorem getProduct_enrichment_spec (raw : RawProduct) (l : List RawProduct) :
    (raw.price ≤ 100 →
      getProduct (Except.ok raw) = Except.ok
        { id := raw.id, title := raw.title, price := raw.price,
          description := raw.description, category := raw.category,
          image := raw.image, isExpensive := false,
          priceWithTax := raw.price * (11/10) }) ∧
    (100 < raw.price →
      getProduct (Except.ok raw) = Except.ok
        { id := raw.id, title := raw.title, price := raw.price,
          description := raw.description, category := raw.category,
          image := raw.image, isExpensive := true,
          priceWithTax := raw.price * (23/20) }) ∧
    (enrichProduct ⟨1, "iPhone 15 Pro", 999, "", "electronics", ""⟩).isExpensive
      = true ∧
    (enrichProduct ⟨1, "iPhone 15 Pro", 999, "", "electronics", ""⟩).priceWithTax
      = 1148.85 ∧
    (enrichProduct ⟨2, "Camiseta", 25, "", "clothing", ""⟩).isExpensive = false ∧
    (enrichProduct ⟨2, "Camiseta", 25, "", "clothing", ""⟩).priceWithTax = 27.5 ∧
    getProductsByCategory (Except.ok l) = Except.ok (l.map enrichCategoryProduct) ∧
    ∀ p : RawProduct,
      (enrichCategoryProduct p).isExpensive = (enrichProduct p).isExpensive ∧
      (enrichCategoryProduct p).priceWithTax = (enrichProduct p).priceWithTax := by
  refine ⟨?_, ?_, by norm_num [enrichProduct],
    by norm_num [enrichProduct, calculateTax], by norm_num [enrichProduct],
    by norm_num [enrichProduct, calculateTax], rfl, fun p => ⟨rfl, rfl⟩⟩
  · intro h
    have hng : ¬ (100 : ℚ) < raw.price := not_lt.mpr h
    simp only [getProduct, enrichProduct, calculateTax, Except.ok.injEq,
      Product.mk.injEq, if_neg hng]
    exact ⟨trivial, trivial, trivial, trivial, trivial, trivial,
      by simp [hng], by ring⟩
  · intro h
    simp only [getProduct, enrichProduct, calculateTax, Except.ok.injEq,
      Product.mk.injEq, if_pos h]
    exact ⟨trivial, trivial, trivial, trivial, trivial, trivial,
      by simp [h], by ring⟩

theorem getProduct_enrichment_spec_witness :
    getProduct (Except.ok ⟨2, "Camiseta", 25, "", "clothing", ""⟩) =
      Except.ok ⟨2, "Camiseta", 25, "", "clothing", "", false, 25 * (11/10)⟩ :=
  (getProduct_enrichment_spec ⟨2, "Camiseta", 25, "", "clothing", ""⟩ []).1
    (by show (25 : ℚ) ≤ 100; norm_num)

/-- C2 (amended): the discount activates iff the UNROUNDED subtotal exceeds
500; when active it is 5% of the unrounded subtotal; the total is the
unrounded subtotal minus the unrounded discount; `subtotal`, `discount` and
`total` are each rounded to 2 decimals independently. -/
theorem getCartSummary_discount_spec (items : List CartItem) :
    ((items.map CartItem.subtotal).sum > 500 →
      (getCartSummary items).hasDiscount = true ∧
      (getCartSummary items).discount =
        round2 ((items.map CartItem.subtotal).sum * (5/100))) ∧
    ((items.map CartItem.subtotal).sum ≤ 500 →
      (getCartSummary items).hasDiscount = false ∧
      (getCartSummary items).discount = 0) ∧
    (getCartSummary items).subtotal = round2 ((items.map CartItem.subtotal).sum) ∧
    (getCartSummary items).total =
      round2 ((items.map CartItem.subtotal).sum -
        (if (items.map CartItem.subtotal).sum > 500 then
          (items.map CartItem.subtotal).sum * (5/100) else 0)) := by
  refine ⟨fun hc => ⟨?_, ?_⟩, fun hle => ⟨?_, ?_⟩,
    summary_subtotal items, summary_total items⟩
  · rw [summary_hasDiscount, if_pos hc]
    simp only [decide_eq_true_eq, gt_iff_lt]
    linarith
  · rw [summary_discount, if_pos hc]
  · rw [summary_hasDiscount, if_neg (not_lt.mpr hle)]
    simp
  · rw [summary_discount, if_neg (not_lt.mpr hle)]
    exact round2_zero

theorem getCartSummary_discount_spec_witness :
    (getCartSummary [⟨1, "Laptop", 500, 600, 1, 600, true⟩]).hasDiscount = true ∧
    (getCartSummary [⟨1, "Laptop", 500, 600, 1, 600, true⟩]).discount =
      round2 ((([⟨1, "Laptop", 500, 600, 1, 600, true⟩] : List CartItem).map
        CartItem.subtotal).sum * (5/100)) :=
  (getCartSummary_discount_spec [⟨1, "Laptop", 500, 600, 1, 600, true⟩]).1
    (by norm_num)

/-- C6: when the fetch inside `isProductAvailable` fails, the verdict is
`false` for every random draw; the function is total and never raises. -/
theorem isProductAvailable_fetch_failure (e : String) (draw : ℚ) :
    isProductAvailable (Except.error e) draw = false := rfl

/-- C7: for a fetched price ≤ 100 the availability verdict is `true` for
every draw (it does not depend on the draw); for a price > 100 the verdict
is `true` exactly when the fresh draw exceeds 0.3. -/
theorem isProductAvailable_draw_spec (raw : RawProduct) (draw : ℚ) :
    (raw.price ≤ 100 → isProductAvailable (Except.ok raw) draw = true) ∧
    (100 < raw.price →
      (isProductAvailable (Except.ok raw) draw = true ↔ 3/10 < draw)) := by
  constructor
  · intro h
    simp [isProductAvailable, getProduct, enrichProduct, not_lt.mpr h]
  · intro h
    simp [isProductAvailable, getProduct, enrichProduct, h]

theorem isProductAvailable_draw_spec_witness :
    isProductAvailable (Except.ok ⟨5, "Taza", 20, "", "home", ""⟩) 0 = true :=
  (isProductAvailable_draw_spec ⟨5, "Taza", 20, "", "home", ""⟩ 0).1
    (by show (20 : ℚ) ≤ 100; norm_num)

/-- C8: `getCartSummary` reports `totalItems` as the sum of the line
quantities and `subtotal` as the sum of the line subtotals rounded to 2
decimals; it is a pure read that leaves the line list unchanged. -/
theorem getCartSummary_totals_pure (items : List CartItem) :
    (getCartSummary items).totalItems = (items.map CartItem.quantity).sum ∧
    (getCartSummary items).subtotal = round2 ((items.map CartItem.subtotal).sum) ∧
    (getCartSummary items).items = items ∧
    applyOp items CartOp.summary = items :=
  ⟨summary_totalItems items, summary_subtotal items, summary_items items, rfl⟩

/-- C3 (amended): along any trace of aggregator calls in which every
`addProduct` uses a positive quantity and draws its product fetch from a
fixed catalog, every reachable CartLine satisfies `quantity ≥ 1` and
`lineSubtotal = quantity × unitPriceWithTax`. -/
theorem cartLine_invariant_preserved (catalog : Nat → Except String RawProduct)
    (ops : List CartOp) (hops : ∀ op ∈ ops, OpRespects catalog op) :
    ∀ item ∈ runOps ops, lineInvariant item := by
  intro item hitem
  have hgood := foldl_applyOp_good catalog ops []
    (fun x hx => absurd hx (List.not_mem_nil x)) hops
  exact (hgood item hitem).1

def stableCatalog : Nat → Except String RawProduct :=
  fun _ => Except.ok ⟨1, "Widget", 50, "", "misc", ""⟩

def stableOps : List CartOp :=
  [CartOp.add 1 1 (Except.ok ⟨1, "Widget", 50, "", "misc", ""⟩)
    (Except.ok ⟨1, "Widget", 50, "", "misc", ""⟩) (1/2)]

theorem cartLine_invariant_preserved_witness :
    lineInvariant ⟨1, "Widget", 50, 55, 1, 55, false⟩ :=
  cartLine_invariant_preserved stableCatalog stableOps
    (by intro op hop
        rw [stableOps, List.mem_singleton] at hop
        subst hop
        exact ⟨rfl, le_refl 1⟩)
    ⟨1, "Widget", 50, 55, 1, 55, false⟩
    (by norm_num [stableOps, runOps, applyOp, addProduct, getProduct,
      enrichProduct, calculateTax, isProductAvailable])

def driftOps : List CartOp :=
  [CartOp.add 7 1 (Except.ok ⟨7, "Gadget", 100, "", "x", ""⟩)
    (Except.ok ⟨7, "Gadget", 100, "", "x", ""⟩) (1/2),
   CartOp.add 7 1 (Except.ok ⟨7, "Gadget", 200, "", "x", ""⟩)
    (Except.ok ⟨7, "Gadget", 200, "", "x", ""⟩) (1/2)]

theorem cartLine_invariant_cex :
    ((runOps driftOps).all fun it =>
      decide (it.subtotal = (it.quantity : ℚ) * it.priceWithTax)) = false ∧
    ((runOps driftOps).all fun it => decide (1 ≤ it.quantity)) = true := by
  norm_num [driftOps, runOps, applyOp, addProduct, getProduct, enrichProduct,
    calculateTax, isProductAvailable, replaceFirst, List.all]

lemma find?_pid_eq_none {items : List CartItem} {pid : Nat}
    (h : ∀ it ∈ items, it.productId ≠ pid) :
    items.find? (fun item => item.productId == pid) = none := by
  rw [List.find?_eq_none]
  intro x hx
  simp [h x hx]

lemma find?_append_of_none {l₁ l₂ : List CartItem} {p : CartItem → Bool}
    (h : l₁.find? p = none) : (l₁ ++ l₂).find? p = l₂.find? p := by
  induction l₁ with
  | nil => simp
  | cons a l ih =>
      cases hpa : p a with
      | true =>
          rw [List.find?_cons_of_pos _ hpa] at h
          exact absurd h (by simp)
      | false =>
          rw [List.find?_cons_of_neg _ (by simp [hpa])] at h
          rw [List.cons_append, List.find?_cons_of_neg _ (by simp [hpa])]
          exact ih h

lemma replaceFirst_append_of_none {pid : Nat} {u : CartItem}
    (l₂ : List CartItem) :
    ∀ (l₁ : List CartItem), (∀ it ∈ l₁, it.productId ≠ pid) →
      replaceFirst (l₁ ++ l₂) pid u = l₁ ++ replaceFirst l₂ pid u := by
  intro l₁
  induction l₁ with
  | nil => intro _; rfl
  | cons a l ih =>
      intro h
      have ha : ¬ (a.productId == pid) = true := by
        simp [h a (List.mem_cons_self a l)]
      rw [List.cons_append]
      simp only [replaceFirst]
      rw [if_neg ha, ih (fun it hit => h it (List.mem_cons_of_mem a hit)),
        List.cons_append]

/-- The CartLine literal `addProduct` appends for a fresh product id, when
the fetch returned `p`. -/
def newCartLine (pid : Nat) (q : Int) (p : RawProduct) : CartItem :=
  { productId := pid
    title := p.title
    price := p.price
    priceWithTax := calculateTax p.price
    quantity := q
    subtotal := (q : ℚ) * calculateTax p.price
    isExpensive := decide (p.price > 100) }

/-- C4 (amended): two successful `addProduct` calls for the same id, with
quantities `q1` then `q2`, merge into exactly one line whose quantity is
`q1 + q2`; its `lineSubtotal` is `(q1 + q2) × unitPriceWithTax` provided
both lookups priced the product identically (the increment path recomputes
the subtotal from the SECOND fetch's price while keeping the stored
`priceWithTax` of the line from the first). -/
theorem addProduct_twice_merges (items : List CartItem) (pid : Nat)
    (q1 q2 : Int) (p1 p2 : RawProduct) (g1 g2 : Except String RawProduct)
    (r1 r2 : ℚ)
    (hno : ∀ it ∈ items, it.productId ≠ pid)
    (hav1 : isProductAvailable g1 r1 = true)
    (hav2 : isProductAvailable g2 r2 = true)
    (hsame : calculateTax p1.price = calculateTax p2.price) :
    ((addProduct (addProduct items pid q1 (Except.ok p1) g1 r1).2 pid q2
        (Except.ok p2) g2 r2).2).filter (fun it => it.productId == pid) =
      [{ productId := pid, title := p1.title, price := p1.price,
         priceWithTax := calculateTax p1.price, quantity := q1 + q2,
         subtotal := ((q1 + q2 : Int) : ℚ) * calculateTax p1.price,
         isExpensive := decide (p1.price > 100) }] := by
  have hav1' : ¬ isProductAvailable g1 r1 = false := by simp [hav1]
  have hav2' : ¬ isProductAvailable g2 r2 = false := by simp [hav2]
  have hstep1 : (addProduct items pid q1 (Except.ok p1) g1 r1).2 =
      items ++ [newCartLine pid q1 p1] := by
    simp only [addProduct, getProduct, if_neg hav1', find?_pid_eq_none hno]
    rfl
  rw [hstep1]
  have hfind : ((items ++ [newCartLine pid q1 p1]).find?
        (fun item => item.productId == pid)) = some (newCartLine pid q1 p1) := by
    rw [find?_append_of_none (find?_pid_eq_none hno)]
    exact List.find?_cons_of_pos _ (by simp [newCartLine])
  simp only [addProduct, getProduct, if_neg hav2', hfind]
  rw [replaceFirst_append_of_none _ _ hno]
  simp only [replaceFirst, newCartLine, beq_self_eq_true, if_pos]
  rw [List.filter_append, List.filter_eq_nil_iff.mpr
    (fun a ha => by simp [hno a ha])]
  simp only [List.nil_append, List.filter, beq_self_eq_true]
  have hpw : (enrichProduct p2).priceWithTax = calculateTax p1.price := by
    rw [hsame]
    rfl
  rw [hpw]

def penRaw : RawProduct := ⟨3, "Pen", 10, "", "stationery", ""⟩

theorem addProduct_twice_merges_witness :
    ((addProduct (addProduct [] 3 1 (Except.ok penRaw) (Except.ok penRaw)
        (1/2)).2 3 2 (Except.ok penRaw) (Except.ok penRaw) (1/2)).2).filter
      (fun it => it.productId == 3) =
      [{ productId := 3, title := penRaw.title, price := penRaw.price,
         priceWithTax := calculateTax penRaw.price, quantity := 1 + 2,
         subtotal := ((1 + 2 : Int) : ℚ) * calculateTax penRaw.price,
         isExpensive := decide (penRaw.price > 100) }] :=
  addProduct_twice_merges [] 3 1 2 penRaw penRaw (Except.ok penRaw)
    (Except.ok penRaw) (1/2) (1/2)
    (fun it hit => absurd hit (List.not_mem_nil it))
    (by norm_num [isProductAvailable, getProduct, enrichProduct, penRaw])
    (by norm_num [isProductAvailable, getProduct, enrichProduct, penRaw])
    rfl

def repriceCexItems : List CartItem :=
  (addProduct (addProduct [] 9 1 (Except.ok ⟨9, "Cam", 100, "", "x", ""⟩)
      (Except.ok ⟨9, "Cam", 100, "", "x", ""⟩) (1/2)).2 9 1
    (Except.ok ⟨9, "Cam", 200, "", "x", ""⟩)
    (Except.ok ⟨9, "Cam", 200, "", "x", ""⟩) (1/2)).2

theorem addProduct_twice_cex :
    (repriceCexItems.filter fun it => it.productId == 9).length = 1 ∧
    ((repriceCexItems.filter fun it => it.productId == 9).all
      fun it => it.quantity == 1 + 1) = true ∧
    ((repriceCexItems.filter fun it => it.productId == 9).all
      fun it => decide (it.subtotal = (it.quantity : ℚ) * it.priceWithTax)) =
        false := by
  norm_num [repriceCexItems, addProduct, getProduct, enrichProduct,
    calculateTax, isProductAvailable, replaceFirst, List.filter, List.all]

/-- C5: when the availability check inside `addProduct` is false, the call
fails with the error naming the product's title and the cart's line list
after the call is exactly what it was before. -/
theorem addProduct_unavailable_rejected (items : List CartItem) (pid : Nat)
    (q : Int) (f g : Except String RawProduct) (r : ℚ) (product : Product)
    (hp : getProduct f = Except.ok product)
    (hna : isProductAvailable g r = false) :
    addProduct items pid q f g r =
      (Except.error ("No se pudo agregar al carrito: " ++
        ("Producto " ++ product.title ++ " no disponible en stock")), items) := by
  simp [addProduct, hp, hna]

theorem addProduct_unavailable_rejected_witness :
    addProduct [] 1 1 (Except.ok ⟨1, "Producto Agotado", 200, "", "limited", ""⟩)
      (Except.ok ⟨1, "Producto Agotado", 200, "", "limited", ""⟩) (1/10) =
      (Except.error
        "No se pudo agregar al carrito: Producto Producto Agotado no disponible en stock",
       []) := by
  have h := addProduct_unavailable_rejected [] 1 1
    (Except.ok ⟨1, "Producto Agotado", 200, "", "limited", ""⟩)
    (Except.ok ⟨1, "Producto Agotado", 200, "", "limited", ""⟩) (1/10)
    (enrichProduct ⟨1, "Producto Agotado", 200, "", "limited", ""⟩) rfl
    (by norm_num [isProductAvailable, getProduct, enrichProduct])
  rw [h]
  exact congrArg (fun s => (Except.error s, ([] : List CartItem))) (by decide)

/-- C9: `validateCart` performs one fresh availability check per line (the
`i`-th line consumes the `i`-th fetch and draw); `isValid` is true iff no
per-line verdict is false; `availableItems`/`unavailableItems` exactly
partition the per-line results by verdict; `totalItems` counts the lines;
and the cart's line list is unchanged. -/
theorem validateCart_spec (items : List CartItem)
    (fetchOf : Nat → Except String RawProduct) (drawOf : Nat → ℚ) :
    (validateCart items fetchOf drawOf).totalItems = items.length ∧
    ((validateCart items fetchOf drawOf).isValid = true ↔
      ∀ e ∈ validationResults 0 items fetchOf drawOf, e.isAvailable = true) ∧
    List.Perm
      ((validateCart items fetchOf drawOf).availableItems ++
        (validateCart items fetchOf drawOf).unavailableItems)
      (validationResults 0 items fetchOf drawOf) ∧
    (∀ e ∈ (validateCart items fetchOf drawOf).availableItems,
      e.isAvailable = true) ∧
    (∀ e ∈ (validateCart items fetchOf drawOf).unavailableItems,
      e.isAvailable = false) ∧
    (∀ (j : Nat) (item : CartItem), items[j]? = some item →
      (validationResults 0 items fetchOf drawOf)[j]? =
        some { productId := item.productId, title := item.title,
               quantity := item.quantity,
               isAvailable := isProductAvailable (fetchOf j) (drawOf j) }) ∧
    applyOp items (CartOp.validate fetchOf drawOf) = items := by
  refine ⟨?_, ?_, ?_, ?_, ?_, ?_, rfl⟩
  · exact validationResults_length fetchOf drawOf items 0
  · show ((((validationResults 0 items fetchOf drawOf).filter
      (fun r : ValidationEntry => !r.isAvailable)).length == 0) = true ↔ _)
    simp [List.length_eq_zero, List.filter_eq_nil_iff]
  · exact List.filter_append_perm (fun r : ValidationEntry => r.isAvailable) _
  · intro e he
    simpa using List.of_mem_filter he
  · intro e he
    simpa using List.of_mem_filter he
  · intro j item hj
    rw [validationResults_getElem? fetchOf drawOf items 0 j, hj]
    simp

def sampleItems : List CartItem := [⟨1, "X", 50, 55, 1, 55, false⟩]

def sampleFetch : Nat → Except String RawProduct :=
  fun _ => Except.ok ⟨1, "X", 50, "", "c", ""⟩

def sampleDraw : Nat → ℚ := fun _ => 1/2

theorem validateCart_spec_witness :
    (validationResults 0 sampleItems sampleFetch sampleDraw)[0]? =
      some { productId := 1, title := "X", quantity := 1,
             isAvailable := isProductAvailable (sampleFetch 0) (sampleDraw 0) } :=
  (validateCart_spec sampleItems sampleFetch sampleDraw).2.2.2.2.2.1 0
    ⟨1, "X", 50, 55, 1, 55, false⟩ rfl

/-- C10: every `addProduct` failure is surfaced as a message carrying the
generic prefix `No se pudo agregar al carrito: `; a lookup failure in
particular surfaces doubly wrapped as
`No se pudo agregar al carrito: No se pudo obtener el producto: <cause>`,
so in the model (as in the source, which rethrows plain `Error`s) the two
failure kinds share one error type and differ only in message text. -/
theorem addProduct_error_wrapping :
    (∀ (items : List CartItem) (pid : Nat) (q : Int) (cause : String)
        (g : Except String RawProduct) (r : ℚ),
      addProduct items pid q (Except.error cause) g r =
        (Except.error
          ("No se pudo agregar al carrito: No se pudo obtener el producto: "
            ++ cause), items)) ∧
    (∀ (items : List CartItem) (pid : Nat) (q : Int)
        (f g : Except String RawProduct) (r : ℚ) (msg : String),
      (addProduct items pid q f g r).1 = Except.error msg →
      ∃ rest, msg = "No se pudo agregar al carrito: " ++ rest) := by
  constructor
  · intro items pid q cause g r
    show (Except.error ("No se pudo agregar al carrito: " ++
      ("No se pudo obtener el producto: " ++ cause)), items) = _
    rw [← String.append_assoc]
    rfl
  · intro items pid q f g r msg h
    cases f with
    | error cause =>
        simp only [addProduct, getProduct] at h
        exact ⟨"No se pudo obtener el producto: " ++ cause,
          (Except.error.inj h).symm⟩
    | ok raw =>
        simp only [addProduct, getProduct] at h
        by_cases hav : isProductAvailable g r = false
        · rw [if_pos hav] at h
          exact ⟨"Producto " ++ (enrichProduct raw).title ++
            " no disponible en stock", (Except.error.inj h).symm⟩
        · rw [if_neg hav] at h
          cases hfind : items.find? (fun item => item.productId == pid) with
          | some ex =>
              rw [hfind] at h
              simp at h
          | none =>
              rw [hfind] at h
              simp at h

theorem addProduct_error_wrapping_witness :
    ∃ rest,
      "No se pudo agregar al carrito: No se pudo obtener el producto: Network timeout" =
        "No se pudo agregar al carrito: " ++ rest :=
  addProduct_error_wrapping.2 [] 1 1 (Except.error "Network timeout")
    (Except.error "Network timeout") (1/2)
    "No se pudo agregar al carrito: No se pudo obtener el producto: Network timeout"
    (by rw [addProduct_error_wrapping.1]
        exact congrArg Except.error (by decide))

def discountCexItems : List CartItem :=
  (addProduct [] 1 1 (Except.ok ⟨1, "Big", 434784/1000, "", "x", ""⟩)
    (Except.ok ⟨1, "Big", 434784/1000, "", "x", ""⟩) (1/2)).2

theorem cart_discount_threshold_cex :
    (getCartSummary discountCexItems).hasDiscount = true ∧
    (getCartSummary discountCexItems).discount = 25 ∧
    round2 ((discountCexItems.map CartItem.subtotal).sum) ≤ 500 := by
  norm_num [discountCexItems, addProduct, getProduct, enrichProduct,
    calculateTax, isProductAvailable, getCartSummary, round2]
